import Mathlib

/-
Verification of the sentinel-engine governance pipeline against its design
specification.

The Python core (src/sentinel) is shallowly embedded:
  * Python `str` values are Lean `String`s, manipulated through their
    character lists; the embedding covers ASCII text (Python's `\w`,
    `str.lower`, `str.strip` agree with the Lean models on ASCII).
  * Python floats are modelled as exact rationals (`ℚ`); `round(x, n)` is
    modelled as round-half-to-even at `n` decimal digits, Python's rounding
    mode.
  * Python exceptions are modelled with `Except String`, the string being
    the exception message the source raises.
  * External effects (tiktoken encodings, the outbound LLM call, the
    PostgreSQL audit insert) are abstracted as explicit parameters.
-/

namespace Sentinel

/-! ### Python string primitives -/

/-- Python's `str.isspace` character class, restricted to ASCII:
space, tab, newline, carriage return, vertical tab, form feed. -/
def pyIsSpace (c : Char) : Bool :=
  c = ' ' ∨ c = '\t' ∨ c = '\n' ∨ c = '\r' ∨ c = '\x0b' ∨ c = '\x0c'

/-- Python's `str.strip()`: drop leading and trailing whitespace. -/
def pyStrip (l : List Char) : List Char :=
  (((l.dropWhile pyIsSpace).reverse).dropWhile pyIsSpace).reverse

/-- A `\w` word character of Python's `re` module (ASCII fragment):
a letter, a digit, or an underscore. -/
def isWordChar (c : Char) : Bool :=
  c.isAlphanum || c = '_'

/-- Maximal runs of characters satisfying `p`, with the run read so far
carried in reverse in `acc`; this is `re.findall` of `p`-runs. -/
def runsByAux (p : Char → Bool) : List Char → List Char → List (List Char)
  | [], acc => if acc.isEmpty then [] else [acc.reverse]
  | c :: cs, acc =>
    if p c then runsByAux p cs (c :: acc)
    else if acc.isEmpty then runsByAux p cs []
    else acc.reverse :: runsByAux p cs []

/-- Maximal runs of characters satisfying `p` in a list. -/
def runsBy (p : Char → Bool) (l : List Char) : List (List Char) :=
  runsByAux p l []

/-! ### Python float rounding -/

/-- Round a rational to the nearest integer, ties to even
(the rounding of Python's built-in `round`). -/
def roundHalfEven (x : ℚ) : ℤ :=
  if x - ⌊x⌋ < 1/2 then ⌊x⌋
  else if 1/2 < x - ⌊x⌋ then ⌊x⌋ + 1
  else if ⌊x⌋ % 2 = 0 then ⌊x⌋ else ⌊x⌋ + 1

/-- Python's `round(x, n)` on the rational model of floats. -/
def pyRound (x : ℚ) (n : ℕ) : ℚ :=
  (roundHalfEven (x * 10 ^ n) : ℚ) / 10 ^ n

/-! ### Configuration (src/sentinel/config.py) -/

/-- One per-provider record of `MODEL_ROUTING_THRESHOLDS`. -/
structure RoutingEntry where
  threshold : ℕ
  cheap_model : String
  premium_model : String
deriving DecidableEq, Repr

/-- Model of `MODEL_ROUTING_THRESHOLDS` from src/sentinel/config.py; `none` models a
provider key absent from the dict. -/
def MODEL_ROUTING_THRESHOLDS : String → Option RoutingEntry
  | "openai" => some ⟨500, "gpt-4o-mini", "gpt-4o"⟩
  | "anthropic" => some ⟨500, "claude-3-haiku", "claude-3-sonnet"⟩
  | _ => none

/-- Model of `MODEL_TOKEN_LIMITS` from src/sentinel/config.py. -/
def MODEL_TOKEN_LIMITS : String → Option ℕ
  | "gpt-4o-mini" => some 128000
  | "gpt-4o" => some 128000
  | "claude-3-haiku" => some 200000
  | "claude-3-sonnet" => some 200000
  | _ => none

/-- One per-model record of `PRICING_TABLE` (USD per token). -/
structure PricingEntry where
  input : ℚ
  output : ℚ
deriving DecidableEq, Repr

/-- Model of `PRICING_TABLE` from src/sentinel/config.py: USD-per-token prices,
written there as per-1000-token prices divided by 1000. -/
def PRICING_TABLE : String → Option PricingEntry
  | "gpt-4o-mini" => some ⟨0.00015 / 1000, 0.0006 / 1000⟩
  | "gpt-4o" => some ⟨0.005 / 1000, 0.015 / 1000⟩
  | "claude-3-haiku" => some ⟨0.00025 / 1000, 0.00125 / 1000⟩
  | "claude-3-sonnet" => some ⟨0.003 / 1000, 0.015 / 1000⟩
  | _ => none

/-- Model of `CONFIDENCE_THRESHOLD` from src/sentinel/config.py. -/
def CONFIDENCE_THRESHOLD : ℚ := 0.55

/-- Model of `MAX_OUTPUT_TOKENS` from src/sentinel/config.py. -/
def MAX_OUTPUT_TOKENS : ℕ := 500

/-! ### Router

`route_model` itself is not present in the source tree: the checked-in
src/sentinel/core/router.py is a superseded confidence-based iteration
(it does not define `route_model`, and imports config names that do not
exist), while src/sentinel/core/policy_engine.py imports and calls
`route_model(provider, input_tokens)` and src/sentinel/config.py holds its
`MODEL_ROUTING_THRESHOLDS` table.  The design document's §4.2 and §9 give
the authoritative behaviour, which we model here. -/

/-- Modelled from the spec: the routing function `route_model` is missing
from src (only its caller `execute_governance` and its configuration table
`MODEL_ROUTING_THRESHOLDS` are present).  Per §4.2 of the design document:
`input_tokens < threshold(provider)` selects the cheap model, otherwise the
premium model (ties to premium); an unknown provider fails with an
unsupported-provider error. -/
def route_model (provider : String) (input_tokens : ℕ) : Except String String :=
  match MODEL_ROUTING_THRESHOLDS provider with
  | none => .error "UnsupportedProviderError"
  | some e => .ok (if input_tokens < e.threshold then e.cheap_model else e.premium_model)

/-! ### Token and cost estimation (src/sentinel/core/cost_estimator.py) -/

/-- Model of `_estimate_anthropic_tokens`: `math.ceil(len(text) / 4)`. -/
def _estimate_anthropic_tokens (text : String) : ℕ :=
  (text.length + 3) / 4

/-- Model of `estimate_input_tokens`.  The OpenAI branch measures the combined text
with a tiktoken encoding, an external library; it is abstracted as the
parameter `enc : model → text → token count`. -/
def estimate_input_tokens (enc : String → String → ℕ)
    (query context provider model : String) : Except String ℕ :=
  let combined := query ++ "\n" ++ context
  if provider = "openai" then .ok (enc model combined)
  else if provider = "anthropic" then .ok (_estimate_anthropic_tokens combined)
  else .error "Unsupported provider for token estimation."

/-- Model of `estimate_output_tokens`: the fixed configured output cap. -/
def estimate_output_tokens : ℕ := MAX_OUTPUT_TOKENS

/-- Model of `estimate_cost` from src/sentinel/core/cost_estimator.py:
`(input_tokens / 1000) * pricing["input"] + (output_tokens / 1000) * pricing["output"]`,
rounded to 8 decimal places; a model absent from `PRICING_TABLE` raises
`KeyError`. -/
def estimate_cost (input_tokens output_tokens : ℕ) (model : String) : Except String ℚ :=
  match PRICING_TABLE model with
  | none => .error "KeyError"
  | some pricing =>
    .ok (pyRound ((input_tokens / 1000 : ℚ) * pricing.input
        + (output_tokens / 1000 : ℚ) * pricing.output) 8)

/-- Model of `check_token_overflow`: raises `ValueError("token_overflow")` when
`input_tokens + output_tokens > MODEL_TOKEN_LIMITS[model]`. -/
def check_token_overflow (input_tokens output_tokens : ℕ) (model : String) :
    Except String Unit :=
  match MODEL_TOKEN_LIMITS model with
  | none => .error "KeyError"
  | some model_limit =>
    if input_tokens + output_tokens > model_limit then .error "token_overflow"
    else .ok ()

/-! ### Confidence scoring (src/sentinel/core/confidence.py) -/

/-- Python's binary `min` on the rational model of floats. -/
def pyMin (a b : ℚ) : ℚ := if b < a then b else a

/-- Python's binary `max` on the rational model of floats. -/
def pyMax (a b : ℚ) : ℚ := if a < b then b else a

/-- Model of `_tokenize`: `set(re.findall(r"\b\w+\b", text.lower()))` — the set of
maximal word-character runs of the lowercased text. -/
def _tokenize (text : String) : Finset (List Char) :=
  (runsBy isWordChar (text.data.map Char.toLower)).toFinset

/-- Model of `_lexical_overlap`: `|answer ∩ context| / |answer|` on token sets,
`0.0` if either set is empty. -/
def _lexical_overlap (answer context : String) : ℚ :=
  let answer_tokens := _tokenize answer
  let context_tokens := _tokenize context
  if answer_tokens = ∅ ∨ context_tokens = ∅ then 0
  else ((answer_tokens ∩ context_tokens).card : ℚ) / answer_tokens.card

/-- Model of `_context_utilization`: `|answer ∩ context| / |context|` on token sets,
`0.0` if the context set is empty. -/
def _context_utilization (answer context : String) : ℚ :=
  let answer_tokens := _tokenize answer
  let context_tokens := _tokenize context
  if context_tokens = ∅ then 0
  else ((answer_tokens ∩ context_tokens).card : ℚ) / context_tokens.card

/-- Model of `_length_sanity`: stripped-length ratio capped at `1.0`, `0.0` for an
empty stripped context. -/
def _length_sanity (answer context : String) : ℚ :=
  let answer_len := (pyStrip answer.data).length
  let context_len := (pyStrip context.data).length
  if context_len = 0 then 0
  else
    let frac : ℚ := (answer_len : ℚ) / context_len
    if frac > 1 then 1 else frac

/-- Model of `compute_confidence`: weighted sum of the three sub-scores, rounded to
4 decimal digits and clamped to `[0, 1]`. -/
def compute_confidence (answer context : String) : ℚ :=
  let weighted_score :=
    0.5 * _lexical_overlap answer context +
    0.3 * _context_utilization answer context +
    0.2 * _length_sanity answer context
  pyMax 0 (pyMin 1 (pyRound weighted_score 4))

/-! ### Refusal policy (src/sentinel/core/refusal.py) -/

/-- Model of `should_refuse`: refuse when the context is falsy or strips to nothing,
otherwise refuse iff the confidence score is below `CONFIDENCE_THRESHOLD`. -/
def should_refuse (confidence_score : ℚ) (context : String) : Bool :=
  if context.data = [] ∨ pyStrip context.data = [] then true
  else if confidence_score < CONFIDENCE_THRESHOLD then true
  else false

/-! ### Governance pipeline (src/sentinel/core/policy_engine.py)

The outbound LLM call of src/sentinel/core/llm_client.py is network I/O; it
is abstracted as a parameter `llm : model → Except error LLMOutcome`
returning the answer text and actual usage exactly as `call_llm` does. -/

/-- The tuple `call_llm` returns: answer text, actual input and output
token counts, and latency in milliseconds. -/
structure LLMOutcome where
  answer : String
  input_tokens : ℕ
  output_tokens : ℕ
  latency_ms : ℕ
deriving DecidableEq, Repr

/-- The fixed refusal message of `execute_governance` step 9. -/
def REFUSAL_MESSAGE : String :=
  "Request refused due to low confidence in context grounding."

/-- The dict `execute_governance` returns (step 10). -/
structure GovResult where
  answer : String
  refusal : Bool
  confidence_score : ℚ
  model_used : String
  estimated_cost : ℚ
  actual_cost : ℚ
  input_tokens : ℕ
  output_tokens : ℕ
  latency_ms : ℕ
  provider : String
deriving DecidableEq, Repr

/-- Model of `execute_governance`, generalised over the refusal decision `dec` (the
source instantiates `dec` with `should_refuse`; the generalisation lets a
theorem speak about the counterfactual run in which the refusal decision
went the other way).  Steps follow the source order: temp routing, input
token estimation, routing, overflow check, projected cost, LLM call, actual
cost, confidence, refusal, result. -/
def executeGovernanceWith (dec : ℚ → String → Bool) (enc : String → String → ℕ)
    (llm : String → Except String LLMOutcome)
    (query context provider : String) : Except String GovResult :=
  match route_model provider 0 with
  | .error e => .error e
  | .ok temp_model =>
    match estimate_input_tokens enc query context provider temp_model with
    | .error e => .error e
    | .ok input_tokens =>
      match route_model provider input_tokens with
      | .error e => .error e
      | .ok model_used =>
        let output_tokens_est := estimate_output_tokens
        match check_token_overflow input_tokens output_tokens_est model_used with
        | .error e => .error e
        | .ok _ =>
          match estimate_cost input_tokens output_tokens_est model_used with
          | .error e => .error e
          | .ok estimated_cost =>
            match llm model_used with
            | .error e => .error e
            | .ok out =>
              match estimate_cost out.input_tokens out.output_tokens model_used with
              | .error e => .error e
              | .ok actual_cost =>
                let confidence_score := compute_confidence out.answer context
                let refusal_flag := dec confidence_score context
                let answer := if refusal_flag then REFUSAL_MESSAGE else out.answer
                .ok { answer := answer
                      refusal := refusal_flag
                      confidence_score := confidence_score
                      model_used := model_used
                      estimated_cost := estimated_cost
                      actual_cost := actual_cost
                      input_tokens := out.input_tokens
                      output_tokens := out.output_tokens
                      latency_ms := out.latency_ms
                      provider := provider }

/-- Model of `execute_governance` from src/sentinel/core/policy_engine.py: the
pipeline with the refusal decision taken by `should_refuse`. -/
def execute_governance (enc : String → String → ℕ)
    (llm : String → Except String LLMOutcome)
    (query context provider : String) : Except String GovResult :=
  executeGovernanceWith should_refuse enc llm query context provider

/-! ### Audit logging and the HTTP route
(src/sentinel/core/logger.py, src/sentinel/api/routes.py)

`log_request` performs a PostgreSQL insert; whether the database accepts it
is abstracted as the boolean `dbOk`.  The source wraps every failure into
`RuntimeError("logging_failure")` and returns nothing on success. -/

/-- The record dict `govern` hands to `log_request`. -/
structure LogRecord where
  query : String
  provider : String
  model_used : String
  estimated_cost : ℚ
  actual_cost : ℚ
  confidence_score : ℚ
  refusal_flag : Bool
  latency_ms : ℕ
  input_tokens : ℕ
  output_tokens : ℕ
deriving DecidableEq, Repr

/-- Model of `log_request` from src/sentinel/core/logger.py: the insert itself is
external I/O (`dbOk` says whether it succeeds); any failure is re-raised as
`RuntimeError("logging_failure")`. -/
def log_request (dbOk : Bool) (_record : LogRecord) : Except String Unit :=
  if dbOk then .ok () else .error "logging_failure"

/-- An `HTTPException` raised by the route: status code, error text and
error type of the detail dict. -/
structure HttpError where
  status : ℕ
  error : String
  error_type : String
deriving DecidableEq, Repr

/-- The success body of `POST /govern` (`GovernResponse` in
src/sentinel/types.py; note it carries no `actual_cost`). -/
structure GovernResponse where
  answer : String
  refusal : Bool
  confidence_score : ℚ
  model_used : String
  estimated_cost : ℚ
  input_tokens : ℕ
  output_tokens : ℕ
  latency_ms : ℕ
  provider : String
deriving DecidableEq, Repr

/-- Model of `govern` from src/sentinel/api/routes.py: run the pipeline, persist the
audit record (fail closed), then answer.  A `ValueError` from the pipeline
maps to a 400 response carrying the error string; `RuntimeError
("logging_failure")` maps to the distinguishable 503 response; any other
`RuntimeError` maps to a 500 response. -/
def govern (enc : String → String → ℕ) (llm : String → Except String LLMOutcome)
    (dbOk : Bool) (query context provider : String) : Except HttpError GovernResponse :=
  match execute_governance enc llm query context provider with
  | .error e => .error ⟨400, "Governance execution failed", e⟩
  | .ok result =>
    match log_request dbOk
        { query := query
          provider := result.provider
          model_used := result.model_used
          estimated_cost := result.estimated_cost
          actual_cost := result.actual_cost
          confidence_score := result.confidence_score
          refusal_flag := result.refusal
          latency_ms := result.latency_ms
          input_tokens := result.input_tokens
          output_tokens := result.output_tokens } with
    | .error e =>
      if e = "logging_failure" then
        .error ⟨503, "Logging failure — system integrity preserved", "internal_error"⟩
      else
        .error ⟨500, "Internal server error", "internal_error"⟩
    | .ok _ =>
      .ok { answer := result.answer
            refusal := result.refusal
            confidence_score := result.confidence_score
            model_used := result.model_used
            estimated_cost := result.estimated_cost
            input_tokens := result.input_tokens
            output_tokens := result.output_tokens
            latency_ms := result.latency_ms
            provider := result.provider }

/-! ### Specification-side definitions

These definitions follow the wording of the specification (for refinement
comparisons against the source-derived definitions above), plus concrete
fixtures used to exhibit complete pipeline runs. -/

/-- Clamping to the unit interval (how the spec words the final step of the
confidence formula). -/
def clamp01 (x : ℚ) : ℚ := pyMax 0 (pyMin 1 x)

/-- Token set as claim C5 words it, over a character class `p`: the
distinct maximal `p`-runs of the lowercased text. -/
def specTokensWith (p : Char → Bool) (text : String) : Finset (List Char) :=
  (runsBy p (text.data.map Char.toLower)).toFinset

/-- Lexical sub-score as claim C5 words it: the fraction of the answer's
distinct tokens that also occur among the context's tokens (0 if either
token set is empty). -/
def specLexicalWith (p : Char → Bool) (answer context : String) : ℚ :=
  let A := specTokensWith p answer
  let C := specTokensWith p context
  if A = ∅ ∨ C = ∅ then 0
  else ((A.filter (· ∈ C)).card : ℚ) / A.card

/-- Utilization sub-score as claim C5 words it: the fraction of the
context's distinct tokens occurring in the answer (0 if the context has no
tokens). -/
def specUtilizationWith (p : Char → Bool) (answer context : String) : ℚ :=
  let A := specTokensWith p answer
  let C := specTokensWith p context
  if C = ∅ then 0
  else ((C.filter (· ∈ A)).card : ℚ) / C.card

/-- Length sub-score as claim C5 words it: the ratio of trimmed answer
length to trimmed context length capped at 1.0 (0 if the trimmed context is
empty). -/
def specLengthWith (answer context : String) : ℚ :=
  if pyStrip context.data = [] then 0
  else pyMin (((pyStrip answer.data).length : ℚ) / ((pyStrip context.data).length : ℚ)) 1

/-- Confidence as claim C5 words it, over a character class `p`: the
weighted sum `0.5*lexical + 0.3*utilization + 0.2*length`, clamped to
`[0,1]` and rounded to 4 decimal digits. -/
def specConfidenceWith (p : Char → Bool) (answer context : String) : ℚ :=
  pyRound (clamp01
    (0.5 * specLexicalWith p answer context
      + 0.3 * specUtilizationWith p answer context
      + 0.2 * specLengthWith answer context)) 4

/-- Confidence formula exactly as claim C5 states it, with alphanumeric
tokenization. -/
def claimedConfidence (answer context : String) : ℚ :=
  specConfidenceWith (fun c => c.isAlphanum) answer context

/-- Fixture: a token-estimation oracle (its value is irrelevant for the
`anthropic` runs it is used in). -/
def enc0 : String → String → ℕ := fun _ _ => 0

/-- Fixture: an LLM call oracle whose answer is fully grounded in the
context `"hello"`. -/
def llm0 : String → Except String LLMOutcome := fun _ => .ok ⟨"hello", 1, 1, 1⟩

/-- Fixture: an LLM call oracle whose answer `"zzz"` shares no token with
the context `"hello"`, driving the confidence below the threshold. -/
def llm1 : String → Except String LLMOutcome := fun _ => .ok ⟨"zzz", 1, 1, 1⟩

/-- Fixture: the result of the complete `llm0` run on query `"q"`, context
`"hello"`, provider `"anthropic"`. -/
def r0 : GovResult :=
  ⟨"hello", false, 1, "claude-3-haiku", 63/100000000, 0, 1, 1, 1, "anthropic"⟩

/-- Fixture: the result of the complete `llm1` run on the same request — a
refusal. -/
def r1 : GovResult :=
  ⟨REFUSAL_MESSAGE, true, 3/25, "claude-3-haiku", 63/100000000, 0, 1, 1, 1, "anthropic"⟩

/-! ## Helper lemmas -/

lemma pyStrip_eq_nil_iff (l : List Char) :
    pyStrip l = [] ↔ ∀ c ∈ l, pyIsSpace c := by
  unfold pyStrip
  constructor
  · intro h c hc
    rw [List.reverse_eq_nil_iff, List.dropWhile_eq_nil_iff] at h
    have h' : ∀ x ∈ l.dropWhile pyIsSpace, pyIsSpace x := fun x hx =>
      h x (List.mem_reverse.mpr hx)
    have hsplit := List.takeWhile_append_dropWhile (p := pyIsSpace) (l := l)
    rw [← hsplit] at hc
    rcases List.mem_append.mp hc with h1 | h2
    · exact List.mem_takeWhile_imp h1
    · exact h' _ h2
  · intro h
    have hnil : l.dropWhile pyIsSpace = [] := List.dropWhile_eq_nil_iff.mpr h
    simp [hnil]

lemma roundHalfEven_nonneg {x : ℚ} (h : 0 ≤ x) : 0 ≤ roundHalfEven x := by
  unfold roundHalfEven
  have hf : 0 ≤ ⌊x⌋ := Int.floor_nonneg.mpr h
  split_ifs <;> omega

lemma roundHalfEven_le {x : ℚ} {B : ℤ} (h : x ≤ B) : roundHalfEven x ≤ B := by
  unfold roundHalfEven
  have hfB : ⌊x⌋ ≤ B := by
    have hfl := Int.floor_le_floor h
    simpa using hfl
  have key : ¬ (x - ⌊x⌋ < 1/2) → ⌊x⌋ + 1 ≤ B := by
    intro h1
    have hr : (1:ℚ)/2 ≤ x - ⌊x⌋ := not_lt.mp h1
    have hlt : (⌊x⌋ : ℚ) < (B : ℚ) := by linarith
    have : ⌊x⌋ < B := by exact_mod_cast hlt
    omega
  split_ifs with h1 h2 h3
  · exact hfB
  · exact key h1
  · exact hfB
  · exact key h1

lemma pyRound_nonneg {x : ℚ} (h : 0 ≤ x) (n : ℕ) : 0 ≤ pyRound x n := by
  unfold pyRound
  have h1 : (0:ℚ) ≤ x * 10 ^ n := by positivity
  have h2 : (0:ℚ) ≤ (roundHalfEven (x * 10 ^ n) : ℚ) := by
    exact_mod_cast roundHalfEven_nonneg h1
  exact div_nonneg h2 (by positivity)

lemma pyRound_le_one {x : ℚ} (h : x ≤ 1) (n : ℕ) : pyRound x n ≤ 1 := by
  unfold pyRound
  have hp : (0:ℚ) < 10 ^ n := by positivity
  have h1 : x * 10 ^ n ≤ ((10 ^ n : ℤ) : ℚ) := by
    push_cast
    nlinarith
  have h2 : (roundHalfEven (x * 10 ^ n) : ℚ) ≤ ((10 ^ n : ℤ) : ℚ) := by
    exact_mod_cast roundHalfEven_le h1
  rw [div_le_one hp]
  push_cast at h2
  exact h2

/-! ## Claim C6 -/

/-- Claim C6: `compute_confidence` always lies in the closed interval
`[0, 1]`, whatever the input strings. -/
theorem compute_confidence_bounded (answer context : String) :
    0 ≤ compute_confidence answer context ∧ compute_confidence answer context ≤ 1 := by
  unfold compute_confidence pyMax pyMin
  dsimp only
  split_ifs <;> constructor <;> linarith

/-! ## Claim C10 -/

/-- Claim C10: an empty provider answer always scores exactly zero
confidence: all three sub-scores vanish on an empty answer. -/
theorem empty_answer_zero_confidence (context : String) :
    compute_confidence "" context = 0 := by
  have hA : _tokenize "" = ∅ := rfl
  have h1 : _lexical_overlap "" context = 0 := by
    simp [_lexical_overlap, hA]
  have h2 : _context_utilization "" context = 0 := by
    simp [_context_utilization, hA]
  have h3 : _length_sanity "" context = 0 := by
    have hs : pyStrip (String.data "") = [] := rfl
    simp [_length_sanity, hs]
  unfold compute_confidence
  rw [h1, h2, h3]
  norm_num [pyRound, roundHalfEven, pyMax, pyMin]

/-! ## Claim C5

The claim words the formula over "alphanumeric word-tokens"; the source
tokenizes on Python `\w`, which also accepts the underscore.  The two
tokenizations disagree (counterexample below), so the formula is stated
over a tokenizer parameter and proved for the word-character one. -/

lemma _lexical_overlap_mem (answer context : String) :
    0 ≤ _lexical_overlap answer context ∧ _lexical_overlap answer context ≤ 1 := by
  unfold _lexical_overlap
  dsimp only
  split_ifs with h
  · norm_num
  · push_neg at h
    obtain ⟨hA, _⟩ := h
    have hcard : 0 < (_tokenize answer).card :=
      Finset.card_pos.mpr (Finset.nonempty_iff_ne_empty.mpr hA)
    constructor
    · positivity
    · rw [div_le_one (by exact_mod_cast hcard)]
      exact_mod_cast Finset.card_le_card Finset.inter_subset_left

lemma _context_utilization_mem (answer context : String) :
    0 ≤ _context_utilization answer context ∧ _context_utilization answer context ≤ 1 := by
  unfold _context_utilization
  dsimp only
  split_ifs with h
  · norm_num
  · have hcard : 0 < (_tokenize context).card :=
      Finset.card_pos.mpr (Finset.nonempty_iff_ne_empty.mpr h)
    constructor
    · positivity
    · rw [div_le_one (by exact_mod_cast hcard)]
      exact_mod_cast Finset.card_le_card Finset.inter_subset_right

lemma _length_sanity_mem (answer context : String) :
    0 ≤ _length_sanity answer context ∧ _length_sanity answer context ≤ 1 := by
  unfold _length_sanity
  dsimp only
  split_ifs with h1 h2
  · norm_num
  · norm_num
  · push_neg at h2
    refine ⟨by positivity, h2⟩

lemma clamp01_of_mem {x : ℚ} (h0 : 0 ≤ x) (h1 : x ≤ 1) : clamp01 x = x := by
  unfold clamp01 pyMax pyMin
  split_ifs <;> linarith

lemma filter_mem_finset_eq_inter {α : Type} [DecidableEq α] (s t : Finset α) :
    s.filter (· ∈ t) = s ∩ t := by
  ext x
  simp [Finset.mem_filter, Finset.mem_inter]

lemma specLexicalWith_wordChar (answer context : String) :
    specLexicalWith isWordChar answer context = _lexical_overlap answer context := by
  unfold specLexicalWith _lexical_overlap specTokensWith _tokenize
  dsimp only
  rw [filter_mem_finset_eq_inter]

lemma specUtilizationWith_wordChar (answer context : String) :
    specUtilizationWith isWordChar answer context = _context_utilization answer context := by
  unfold specUtilizationWith _context_utilization specTokensWith _tokenize
  dsimp only
  rw [filter_mem_finset_eq_inter, Finset.inter_comm]

lemma specLengthWith_eq (answer context : String) :
    specLengthWith answer context = _length_sanity answer context := by
  unfold specLengthWith _length_sanity pyMin
  dsimp only
  by_cases h : pyStrip context.data = []
  · simp [h]
  · have hlen : (pyStrip context.data).length ≠ 0 := by
      simpa [List.length_eq_zero] using h
    simp only [h, hlen, if_false]

/-- Counterexample to claim C5 as stated: on answer `"a_b"` and context
`"a b"` the source tokenizes `a_b` as one word token (Python's `\w`
includes the underscore), so `compute_confidence` returns `0.2`, while the
claim's alphanumeric-token formula evaluates to `1`. -/
theorem compute_confidence_alnum_counterexample :
    compute_confidence "a_b" "a b" = 1/5 ∧
    claimedConfidence "a_b" "a b" = 1 ∧
    compute_confidence "a_b" "a b" ≠ claimedConfidence "a_b" "a b" := by
  have h1 : compute_confidence "a_b" "a b" = 1/5 := by with_unfolding_all rfl
  have h2 : claimedConfidence "a_b" "a b" = 1 := by with_unfolding_all rfl
  refine ⟨h1, h2, ?_⟩
  rw [h1, h2]
  norm_num

/-- Claim C5 amended: `compute_confidence(answer, context)` equals the
weighted sum `0.5*lexical + 0.3*utilization + 0.2*length`, clamped to
`[0,1]` and rounded to 4 decimal digits, where the word-tokens are the
distinct case-insensitive maximal runs of word characters (alphanumeric or
underscore), `lexical` and `utilization` are the stated token-set
fractions, and `length` is the capped trimmed-length ratio. -/
theorem compute_confidence_spec_formula (answer context : String) :
    compute_confidence answer context = specConfidenceWith isWordChar answer context := by
  obtain ⟨a1, a2⟩ := _lexical_overlap_mem answer context
  obtain ⟨b1, b2⟩ := _context_utilization_mem answer context
  obtain ⟨c1, c2⟩ := _length_sanity_mem answer context
  unfold specConfidenceWith
  rw [specLexicalWith_wordChar, specUtilizationWith_wordChar, specLengthWith_eq]
  set w := 0.5 * _lexical_overlap answer context
    + 0.3 * _context_utilization answer context
    + 0.2 * _length_sanity answer context with hwdef
  have hw0 : 0 ≤ w := by rw [hwdef]; linarith
  have hw1 : w ≤ 1 := by rw [hwdef]; linarith
  rw [clamp01_of_mem hw0 hw1]
  have hlhs : compute_confidence answer context = clamp01 (pyRound w 4) := rfl
  rw [hlhs]
  exact clamp01_of_mem (pyRound_nonneg hw0 4) (pyRound_le_one hw1 4)

/-! ## Claim C7 -/

/-- Claim C7: `should_refuse(confidence_score, context)` returns true whenever
the context is empty or consists only of whitespace, regardless of the score;
for non-whitespace context it returns true iff
`confidence_score < CONFIDENCE_THRESHOLD`. -/
theorem should_refuse_spec (confidence_score : ℚ) (context : String) :
    should_refuse confidence_score context =
      (context.data.all pyIsSpace
        || decide (confidence_score < CONFIDENCE_THRESHOLD)) := by
  unfold should_refuse
  by_cases hws : ∀ c ∈ context.data, pyIsSpace c
  · have h1 : pyStrip context.data = [] := (pyStrip_eq_nil_iff _).mpr hws
    have h2 : context.data.all pyIsSpace = true := List.all_eq_true.mpr hws
    simp [h1, h2]
  · have h1 : pyStrip context.data ≠ [] := fun h => hws ((pyStrip_eq_nil_iff _).mp h)
    have h0 : context.data ≠ [] := by
      intro h
      exact hws (by simp [h])
    have h2 : ¬ context.data.all pyIsSpace = true := by
      rw [List.all_eq_true]
      exact hws
    by_cases hlt : confidence_score < CONFIDENCE_THRESHOLD <;>
      simp [h0, h1, h2, hlt]

/-! ## Claim C8 -/

/-- Claim C8: for a model with a configured token limit,
`check_token_overflow` fails with the token-overflow error iff
`input_tokens + output_tokens` exceeds the limit, and accepts at the
boundary `input_tokens + output_tokens = limit`. -/
theorem check_token_overflow_boundary (input_tokens output_tokens : ℕ)
    (model : String) (lim : ℕ) (h : MODEL_TOKEN_LIMITS model = some lim) :
    (check_token_overflow input_tokens output_tokens model = .error "token_overflow"
      ↔ input_tokens + output_tokens > lim) ∧
    (input_tokens + output_tokens = lim →
      check_token_overflow input_tokens output_tokens model = .ok ()) := by
  unfold check_token_overflow
  rw [h]
  constructor
  · by_cases hgt : input_tokens + output_tokens > lim <;> simp [hgt]
  · intro he
    simp [he]

/-- Witness for C8 at the boundary: `gpt-4o` has limit 128000 and the check
accepts 127500 + 500 tokens. -/
theorem check_token_overflow_boundary_witness :
    check_token_overflow 127500 500 "gpt-4o" = .ok () :=
  (check_token_overflow_boundary 127500 500 "gpt-4o" 128000 rfl).2 rfl

/-! ## Claim C1 -/

/-- Claim C1: for every supported provider and every token count,
`route_model` returns the provider's cheap model when
`input_tokens < threshold` and the premium model when
`input_tokens ≥ threshold` (so the premium model at the threshold itself). -/
theorem route_model_threshold_routing (provider : String) (e : RoutingEntry)
    (h : MODEL_ROUTING_THRESHOLDS provider = some e) (input_tokens : ℕ) :
    (input_tokens < e.threshold →
      route_model provider input_tokens = .ok e.cheap_model) ∧
    (e.threshold ≤ input_tokens →
      route_model provider input_tokens = .ok e.premium_model) := by
  unfold route_model
  rw [h]
  constructor
  · intro hlt
    simp [hlt]
  · intro hge
    simp [Nat.not_lt.mpr hge]

/-- Witness for C1: for provider `anthropic` (threshold 500), exactly 500
input tokens route to the premium model `claude-3-sonnet`. -/
theorem route_model_threshold_routing_witness :
    route_model "anthropic" 500 = .ok "claude-3-sonnet" :=
  (route_model_threshold_routing "anthropic"
    ⟨500, "claude-3-haiku", "claude-3-sonnet"⟩ rfl 500).2 (le_refl 500)

/-! ## Claim C4 -/

/-- Claim C4 (code bug): `PRICING_TABLE` stores per-token prices (its own
header says "USD per token"), but `estimate_cost` divides the token counts
by 1000 before multiplying by them.  At `input_tokens = 1000`,
`output_tokens = 0`, `model = "gpt-4o"` the code returns 0.000005 USD while
the documented formula `input_tokens * input_price + output_tokens *
output_price` (rounded to 8 decimals) gives 0.005 USD. -/
theorem estimate_cost_pertoken_divergence :
    estimate_cost 1000 0 "gpt-4o" = .ok (1/200000) ∧
    PRICING_TABLE "gpt-4o" = some ⟨0.005/1000, 0.015/1000⟩ ∧
    pyRound ((1000 : ℚ) * (0.005/1000) + (0 : ℚ) * (0.015/1000)) 8 = 1/200 ∧
    (1/200000 : ℚ) ≠ 1/200 := by
  refine ⟨by with_unfolding_all rfl, rfl, by with_unfolding_all rfl, by norm_num⟩

/-! ## Pipeline inversion -/

/-- Shape of a successful pipeline run: every step succeeded and the result
record is assembled from the step outputs. -/
lemma executeGovernanceWith_ok_iff {dec : ℚ → String → Bool}
    {enc : String → String → ℕ} {llm : String → Except String LLMOutcome}
    {query context provider : String} {r : GovResult} :
    executeGovernanceWith dec enc llm query context provider = .ok r ↔
    ∃ temp_model input_tokens model_used estimated_cost out actual_cost,
      route_model provider 0 = .ok temp_model ∧
      estimate_input_tokens enc query context provider temp_model = .ok input_tokens ∧
      route_model provider input_tokens = .ok model_used ∧
      check_token_overflow input_tokens estimate_output_tokens model_used = .ok () ∧
      estimate_cost input_tokens estimate_output_tokens model_used = .ok estimated_cost ∧
      llm model_used = .ok out ∧
      estimate_cost out.input_tokens out.output_tokens model_used = .ok actual_cost ∧
      r = { answer := if dec (compute_confidence out.answer context) context then
              REFUSAL_MESSAGE else out.answer
            refusal := dec (compute_confidence out.answer context) context
            confidence_score := compute_confidence out.answer context
            model_used := model_used
            estimated_cost := estimated_cost
            actual_cost := actual_cost
            input_tokens := out.input_tokens
            output_tokens := out.output_tokens
            latency_ms := out.latency_ms
            provider := provider } := by
  constructor
  · intro h
    unfold executeGovernanceWith at h
    rcases h1 : route_model provider 0 with e | temp_model <;>
      rw [h1] at h <;> dsimp only at h
    · exact Except.noConfusion h
    rcases h2 : estimate_input_tokens enc query context provider temp_model
        with e | input_tokens <;> rw [h2] at h <;> dsimp only at h
    · exact Except.noConfusion h
    rcases h3 : route_model provider input_tokens with e | model_used <;>
      rw [h3] at h <;> dsimp only at h
    · exact Except.noConfusion h
    rcases h4 : check_token_overflow input_tokens estimate_output_tokens model_used
        with e | u <;> rw [h4] at h <;> dsimp only at h
    · exact Except.noConfusion h
    rcases h5 : estimate_cost input_tokens estimate_output_tokens model_used
        with e | estimated_cost <;> rw [h5] at h <;> dsimp only at h
    · exact Except.noConfusion h
    rcases h6 : llm model_used with e | out <;> rw [h6] at h <;> dsimp only at h
    · exact Except.noConfusion h
    rcases h7 : estimate_cost out.input_tokens out.output_tokens model_used
        with e | actual_cost <;> rw [h7] at h <;> dsimp only at h
    · exact Except.noConfusion h
    cases h
    exact ⟨temp_model, input_tokens, model_used, estimated_cost, out, actual_cost,
      by first | rfl | exact h1, by first | rfl | exact h2,
      by first | rfl | exact h3, by first | rfl | exact h4,
      by first | rfl | exact h5, by first | rfl | exact h6,
      by first | rfl | exact h7, rfl⟩
  · rintro ⟨temp_model, input_tokens, model_used, estimated_cost, out, actual_cost,
      h1, h2, h3, h4, h5, h6, h7, rfl⟩
    unfold executeGovernanceWith
    rw [h1]
    dsimp only
    rw [h2]
    dsimp only
    rw [h3]
    dsimp only
    rw [h4]
    dsimp only
    rw [h5]
    dsimp only
    rw [h6]
    dsimp only
    rw [h7]

/-! ## Claim C2 -/

/-- Claim C2: for every request whose pipeline completes, the `model_used`
field of the governance result is one of the routing configuration's
`cheap_model` and `premium_model` for the request's provider. -/
theorem model_used_mem_routing_config (enc : String → String → ℕ)
    (llm : String → Except String LLMOutcome) (query context provider : String)
    (r : GovResult) (h : execute_governance enc llm query context provider = .ok r) :
    ∃ e, MODEL_ROUTING_THRESHOLDS provider = some e ∧
      (r.model_used = e.cheap_model ∨ r.model_used = e.premium_model) := by
  rw [execute_governance] at h
  obtain ⟨tm, it, mu, ec, out, ac, h1, h2, h3, h4, h5, h6, h7, rfl⟩ :=
    executeGovernanceWith_ok_iff.mp h
  unfold route_model at h3
  rcases hT : MODEL_ROUTING_THRESHOLDS provider with _ | e <;>
    rw [hT] at h3 <;> dsimp only at h3
  · exact Except.noConfusion h3
  · refine ⟨e, rfl, ?_⟩
    have hmu : (if it < e.threshold then e.cheap_model else e.premium_model) = mu := by
      injection h3
    show mu = e.cheap_model ∨ mu = e.premium_model
    rw [← hmu]
    split_ifs
    · exact Or.inl rfl
    · exact Or.inr rfl

/-- Witness for C2: the complete `llm0` run on provider `anthropic` uses
one of the two configured anthropic models. -/
theorem model_used_mem_routing_config_witness :
    r0.model_used = "claude-3-haiku" ∨ r0.model_used = "claude-3-sonnet" := by
  obtain ⟨e, he, hm⟩ := model_used_mem_routing_config enc0 llm0 "q" "hello"
    "anthropic" r0 (by with_unfolding_all rfl)
  have he' : (⟨500, "claude-3-haiku", "claude-3-sonnet"⟩ : RoutingEntry) = e := by
    have h0 : MODEL_ROUTING_THRESHOLDS "anthropic" =
        some ⟨500, "claude-3-haiku", "claude-3-sonnet"⟩ := rfl
    exact Option.some.inj (h0.symm.trans he)
  rw [← he'] at hm
  exact hm

/-! ## Claim C3 -/

/-- Claim C3: when the completed pipeline refuses, the returned answer is
the fixed refusal message, and the run in which the refusal decision had
gone the other way yields identical confidence_score, model_used,
estimated_cost, actual_cost, input_tokens, output_tokens, latency_ms and
provider — the refusal decision changes only the answer (and the flag
itself). -/
theorem refusal_frame_effect (enc : String → String → ℕ)
    (llm : String → Except String LLMOutcome) (query context provider : String)
    (r : GovResult) (h : execute_governance enc llm query context provider = .ok r)
    (hr : r.refusal = true) :
    r.answer = REFUSAL_MESSAGE ∧
    ∃ r', executeGovernanceWith (fun s c => !(should_refuse s c)) enc llm
        query context provider = .ok r' ∧
      r'.confidence_score = r.confidence_score ∧
      r'.model_used = r.model_used ∧
      r'.estimated_cost = r.estimated_cost ∧
      r'.actual_cost = r.actual_cost ∧
      r'.input_tokens = r.input_tokens ∧
      r'.output_tokens = r.output_tokens ∧
      r'.latency_ms = r.latency_ms ∧
      r'.provider = r.provider := by
  rw [execute_governance] at h
  obtain ⟨tm, it, mu, ec, out, ac, h1, h2, h3, h4, h5, h6, h7, rfl⟩ :=
    executeGovernanceWith_ok_iff.mp h
  have hflag : should_refuse (compute_confidence out.answer context) context = true := hr
  constructor
  · show (if should_refuse (compute_confidence out.answer context) context then
      REFUSAL_MESSAGE else out.answer) = REFUSAL_MESSAGE
    rw [hflag]
    rfl
  · exact ⟨_, executeGovernanceWith_ok_iff.mpr
      ⟨tm, it, mu, ec, out, ac, h1, h2, h3, h4, h5, h6, h7, rfl⟩,
      rfl, rfl, rfl, rfl, rfl, rfl, rfl, rfl⟩

/-- Witness for C3: the complete `llm1` run refuses, and its answer is the
fixed refusal message. -/
theorem refusal_frame_effect_witness : r1.answer = REFUSAL_MESSAGE :=
  (refusal_frame_effect enc0 llm1 "q" "hello" "anthropic" r1
    (by with_unfolding_all rfl) rfl).1

/-! ## Claim C9 -/

/-- Claim C9: if the pipeline completes but audit logging fails, `govern`
fails with the distinguishable 503 logging-failure error instead of
returning the governed answer; a governed answer is only returned when the
audit record was persisted. -/
theorem logging_failure_fails_closed (enc : String → String → ℕ)
    (llm : String → Except String LLMOutcome) (query context provider : String)
    (r : GovResult) (h : execute_governance enc llm query context provider = .ok r) :
    govern enc llm false query context provider =
      .error ⟨503, "Logging failure — system integrity preserved", "internal_error"⟩ ∧
    ∀ dbOk resp, govern enc llm dbOk query context provider = .ok resp → dbOk = true := by
  constructor
  · simp [govern, h, log_request]
  · intro dbOk resp hok
    cases dbOk
    · simp [govern, h, log_request] at hok
    · rfl

/-- Witness for C9: on the complete `llm0` run, a failed audit insert turns
the whole request into the 503 logging-failure response. -/
theorem logging_failure_fails_closed_witness :
    govern enc0 llm0 false "q" "hello" "anthropic" =
      .error ⟨503, "Logging failure — system integrity preserved", "internal_error"⟩ :=
  (logging_failure_fails_closed enc0 llm0 "q" "hello" "anthropic" r0
    (by with_unfolding_all rfl)).1

end Sentinel
